import Mathlib

/-!
A shallow embedding of the message-relay service (`app.py`) in Lean 4,
together with theorems settling the specification claims.

Conventions used throughout:
* Python strings are Lean `String`s (lists of characters, so `len`,
  slicing and padding count characters exactly as Python does);
* JSON numbers (CPU/RAM/disk percentages) are embedded as `Rat`;
* file reads and outbound HTTP calls are passed in as explicit
  parameters (oracles), so every function is pure and executable;
* a Python value that may be absent from a JSON object is an `Option`.
-/

/-- Single quote character, used when reproducing Python `repr` output. -/
def apos : String := String.singleton (Char.ofNat 39)

/-- Truthiness of an optional string, as Python sees it: `None` and the
empty string are falsy. -/
def pyFalsy (o : Option String) : Bool :=
  match o with
  | none => true
  | some s => s = ""

/-- Python `a or b` for two optional strings: the first operand wins
unless it is falsy (`None` or `""`). -/
def pyOrOpt (a b : Option String) : Option String :=
  match a with
  | some s => if s = "" then b else some s
  | none => b

/-- Python `a or b` where `a` is an optional string and `b` a string. -/
def pyOrStr (a : Option String) (b : String) : String :=
  match a with
  | some s => if s = "" then b else s
  | none => b

/-- First `n` characters of a string, Python `s[:n]`. -/
def pyTake (s : String) (n : Nat) : String :=
  ⟨s.data.take n⟩

/-- Python `str.lower()` (ASCII letters; the characters appearing in the
service are unaffected beyond ASCII). -/
def pyLower (s : String) : String :=
  ⟨s.data.map Char.toLower⟩

/-- Python `s * n` for a string and an integer: non-positive counts give
the empty string. -/
def pyRepeat (s : String) (n : Int) : String :=
  String.join (List.replicate n.toNat s)

/-- Python format `{s:<w}`: pad on the right with spaces to width `w`
(characters); longer strings are kept whole. -/
def pyPadRight (s : String) (w : Nat) : String :=
  s ++ ⟨List.replicate (w - s.length) ' '⟩

/-- Python format `{s:>w}`: pad on the left with spaces to width `w`. -/
def pyPadLeft (s : String) (w : Nat) : String :=
  ⟨List.replicate (w - s.length) ' '⟩ ++ s

/-- Python `needle in hay` for strings: substring containment. -/
def pyIn (needle hay : String) : Bool :=
  hay.data.tails.any (fun t => List.isPrefixOf needle.data t)

/-- Python `s.strip(c)`: remove all leading and trailing occurrences of
the character `c`. -/
def pyStripChar (s : String) (c : Char) : String :=
  ⟨((s.data.dropWhile (· = c)).reverse.dropWhile (· = c)).reverse⟩

/-- Python `s.replace(a, b)` for single-character pattern and
replacement (the only shape the service uses: `replace("T", " ")`). -/
def pyReplaceChar (s : String) (a b : Char) : String :=
  ⟨s.data.map (fun c => if c = a then b else c)⟩

/-- Python `str.split()` with no argument: split on whitespace runs and
drop empty pieces. -/
def pySplitWs (s : String) : List String :=
  (s.split Char.isWhitespace).filter (fun t => t ≠ "")

/-- Python `str.isdigit` restricted to ASCII digits: non-empty and all
characters are digits. -/
def pyIsDigits (s : String) : Bool :=
  s ≠ "" && s.data.all Char.isDigit

/-- Python `s.replace(".", "", 1)`: remove the first dot, if any. -/
def pyDropFirstDot (s : String) : String :=
  match s.data.splitOn '.' with
  | [] => s
  | [_] => s
  | x :: y :: rest => ⟨x ++ y ++ (rest.map (fun l => '.' :: l)).flatten⟩

/-- Numeric value of a list of ASCII digit characters. -/
def digitsVal (l : List Char) : Nat :=
  l.foldl (fun a c => a * 10 + (c.toNat - 48)) 0

/-- Value of a decimal literal `ddd.ddd` (either side may be empty), the
shape accepted by the disk-usage filter before calling `float`. -/
def parseDec (s : String) : Rat :=
  match s.data.splitOn '.' with
  | [] => 0
  | [ip] => (digitsVal ip : Rat)
  | ip :: fp :: _ => mkRat (digitsVal (ip ++ fp)) ((10 : Nat) ^ fp.length)

/-- Python `float(s)` on the subset of literals the service can meet:
optional sign, digits with at most one dot.  Anything else is `none`
(which the callers turn into their `except` fallback). -/
def pyFloat (s : String) : Option Rat :=
  let core (t : List Char) : Option Rat :=
    match t.splitOn '.' with
    | [ip] => if pyIsDigits ⟨ip⟩ then some (digitsVal ip : Rat) else none
    | [ip, fp] =>
        if (ip.all Char.isDigit && fp.all Char.isDigit) && (ip ≠ [] || fp ≠ []) then
          some (mkRat (digitsVal (ip ++ fp)) ((10 : Nat) ^ fp.length))
        else none
    | _ => none
  match s.data with
  | '-' :: t => (core t).map (fun r => -r)
  | '+' :: t => core t
  | t => core t

/-- The absolute value of `r` scaled by `10 ^ prec` and rounded to the
nearest integer with ties to even (the rounding CPython uses when
formatting floats), computed directly on the numerator and denominator
so that it evaluates by kernel reduction. -/
def pyFmtScaled (r : Rat) (prec : Nat) : Nat :=
  let num : Nat := r.num.natAbs * 10 ^ prec
  let den : Nat := r.den
  let f : Nat := num / den
  let rem : Nat := num - f * den
  if 2 * rem < den then f
  else if den < 2 * rem then f + 1
  else if f % 2 = 0 then f else f + 1

/-- Python `format(x, "." ++ prec ++ "f")` on an (idealized) float value:
fixed-point rendering with `prec` fractional digits, ties to even. -/
def pyFmtF (r : Rat) (prec : Nat) : String :=
  let sign := if r < 0 then "-" else ""
  let n := pyFmtScaled r prec
  if prec = 0 then sign ++ toString n
  else
    let digs := toString n
    let padded : List Char := List.replicate (prec + 1 - digs.length) '0' ++ digs.data
    sign ++ ⟨padded.take (padded.length - prec)⟩ ++ "." ++ ⟨padded.drop (padded.length - prec)⟩

/-- Display of an optional string in a Python f-string: `None` prints as
the word `None`. -/
def optStr (o : Option String) : String :=
  match o with
  | some s => s
  | none => "None"

/-- Zero-pad the decimal form of `n` to at least `w` characters
(`strftime` zero-padding). -/
def padNum (w : Nat) (n : Nat) : String :=
  let s := toString n
  ⟨List.replicate (w - s.length) '0'⟩ ++ s

/-- A wall-clock instant, the data `datetime.now()` supplies. -/
structure DateTime where
  year : Nat
  month : Nat
  day : Nat
  hour : Nat
  minute : Nat
  second : Nat
deriving DecidableEq

/-- `datetime.now().strftime("%Y-%m-%d %H:%M:%S")`: the timestamp string
the service injects (`app.py` lines 565-566 and 633-634). -/
def formatTimestamp (t : DateTime) : String :=
  padNum 4 t.year ++ "-" ++ padNum 2 t.month ++ "-" ++ padNum 2 t.day ++ " " ++
    padNum 2 t.hour ++ ":" ++ padNum 2 t.minute ++ ":" ++ padNum 2 t.second

/-! ## Templates and rendering -/

/-- One piece of a format string: literal text or a named placeholder
`{name}`.  A template is the parsed form of a Python format string in
the shape the service stores (named fields, no format specs). -/
inductive TplPart where
  | lit (s : String)
  | var (name : String)
deriving DecidableEq

/-- A message template: the parsed format string. -/
abbrev Tpl := List TplPart

/-- The placeholder names a template references. -/
def tplRefs (t : Tpl) : List String :=
  t.filterMap (fun p => match p with | .lit _ => none | .var n => some n)

/-- Value of one template part under a variable mapping; a placeholder
with no matching variable is the `KeyError` Python raises, carrying the
missing name. -/
def renderPart (vs : List (String × String)) : TplPart → Except String String
  | .lit s => .ok s
  | .var n =>
      match List.lookup n vs with
      | some v => .ok v
      | none => .error n

/-- `template.format(**variables)`: left-to-right substitution, stopping
at the first missing placeholder (Python raises `KeyError` there). -/
def render (t : Tpl) (vs : List (String × String)) : Except String String :=
  match t with
  | [] => .ok ""
  | p :: rest =>
      match renderPart vs p with
      | .error e => .error e
      | .ok v =>
          match render rest vs with
          | .error e => .error e
          | .ok r => .ok (v ++ r)

/-- The first placeholder of `t` that has no value in `vs` (the key a
`KeyError` from `format` would carry), if any. -/
def firstMissing (t : Tpl) (vs : List (String × String)) : Option String :=
  match t with
  | [] => none
  | .lit _ :: rest => firstMissing rest vs
  | .var n :: rest =>
      match List.lookup n vs with
      | some _ => firstMissing rest vs
      | none => some n

/-- `DEFAULT_TEMPLATES` from `app.py`, parsed. -/
def DEFAULT_TEMPLATES : List (String × Tpl) :=
  [ ("vm_alert", [.lit "🔴 *", .var "hostname", .lit "* - ", .var "resource", .lit " at ", .var "value", .lit "%"]),
    ("vm_warning", [.lit "⚠️ *", .var "hostname", .lit "* - ", .var "resource", .lit " at ", .var "value", .lit "%"]),
    ("summary", [.lit "📊 *Alert Summary*\n", .var "count", .lit " VMs need attention"]),
    ("test", [.lit "✅ Message relay is working! Sent at ", .var "timestamp"]),
    ("custom", [.var "message"]) ]

/-- Lines 564-566 / 633-634 of `app.py`: add a `timestamp` variable if
the caller did not supply one (Python dict insertion appends the new
key after the existing ones). -/
def addTimestamp (now : DateTime) (vars : List (String × String)) : List (String × String) :=
  match List.lookup "timestamp" vars with
  | some _ => vars
  | none => vars ++ [("timestamp", formatTimestamp now)]

/-! ## Config and the API-key gate -/

/-- The parsed config JSON object; a missing key is `none` (the code
reads every key with `config.get(key, default)`). -/
structure Config where
  telegram_bot_token : Option String
  api_keys : Option (List String)
  vm_monitor_url : Option String
  authorized_chats : Option (List String)
deriving DecidableEq

/-- The empty JSON object `{}`. -/
def emptyConfig : Config := ⟨none, none, none, none⟩

/-- State of the config file on disk: absent, unreadable/unparseable, or
a parsed object. -/
inductive ConfigFile where
  | absent
  | malformed
  | parsed (c : Config)
deriving DecidableEq

/-- `load_config` (`app.py` lines 54-63): a missing file and a parse
error both yield the empty object. -/
def load_config : ConfigFile → Config
  | .absent => emptyConfig
  | .malformed => emptyConfig
  | .parsed c => c

/-- Outcome of the `require_api_key` gate: an HTTP rejection with a
status code and error text, or fall-through to the handler. -/
inductive AuthResult where
  | reject (status : Nat) (error : String)
  | pass
deriving DecidableEq

/-- `require_api_key` (`app.py` lines 79-97): the key comes from the
`X-API-Key` header or, if that is falsy, the `api_key` query parameter;
a falsy key is 401, a key outside the accepted list is 403. -/
def require_api_key (src : ConfigFile) (header queryParam : Option String) : AuthResult :=
  let config := load_config src
  let api_keys := config.api_keys.getD []
  let api_key := pyOrOpt header queryParam
  if pyFalsy api_key then .reject 401 "Missing API key"
  else if (api_key.getD "") ∈ api_keys then .pass
  else .reject 403 "Invalid API key"

/-! ## The Telegram boundary and the send endpoints -/

/-- The JSON object `send_telegram_message` returns: the upstream `ok`
flag plus the optional `description`/`error` fields the endpoints read.
Delivery outcomes are supplied to the endpoints as oracles of this
type. -/
structure TgResult where
  ok : Bool
  description : Option String
  error : Option String
deriving DecidableEq

/-- Projection of an endpoint HTTP response onto the fields the claims
are about: status code, the `success` flag and the `error` text. -/
structure SendResp where
  status : Nat
  success : Option Bool
  error : Option String
deriving DecidableEq

/-- `POST /send` (`app.py` lines 520-591), after the API-key gate.  The
template store is a parameter (the code re-reads it per request), the
clock and the Telegram call are oracles.  The second component lists the
outbound Telegram calls `(chat_id, text)` the request produced. -/
def send_message (templates : List (String × Tpl)) (template_name chat_id : Option String)
    (vars0 : List (String × String)) (now : DateTime)
    (tg : String → String → TgResult) : SendResp × List (String × String) :=
  if pyFalsy template_name then (⟨400, none, some "template is required"⟩, [])
  else if pyFalsy chat_id then (⟨400, none, some "chat_id is required"⟩, [])
  else
    let name := template_name.getD ""
    match List.lookup name templates with
    | none => (⟨400, none, some ("Unknown template: " ++ name)⟩, [])
    | some tpl =>
        let vars := addTimestamp now vars0
        match render tpl vars with
        | .error k => (⟨400, none, some ("Missing variable: " ++ apos ++ k ++ apos)⟩, [])
        | .ok msg =>
            let c := chat_id.getD ""
            let r := tg c msg
            if r.ok then (⟨200, some true, none⟩, [(c, msg)])
            else (⟨500, some false, some (pyOrStr r.description (r.error.getD "Unknown error"))⟩, [(c, msg)])

/-- Response of `POST /send/batch`: a 400 validation rejection, or the
always-200 body with `success`, `sent`, `total` and the per-recipient
`results` array. -/
inductive BatchResult where
  | badRequest (error : String)
  | ok (success : Bool) (sent total : Nat) (results : List (String × Bool))
deriving DecidableEq

/-- HTTP status of a batch response. -/
def batchStatus : BatchResult → Nat
  | .badRequest _ => 400
  | .ok _ _ _ _ => 200

/-- The `success` flag of a batch response, when one was produced. -/
def batchSuccess : BatchResult → Option Bool
  | .badRequest _ => none
  | .ok s _ _ _ => some s

/-- The `sent` count of a batch response, when one was produced. -/
def batchSent : BatchResult → Option Nat
  | .badRequest _ => none
  | .ok _ m _ _ => some m

/-- The per-recipient results of the batch loop (`app.py` lines
642-648): the i-th upstream call is `tg i chat text`; each entry records
the recipient and the upstream `ok` flag. -/
def batchResults (tg : Nat → String → String → TgResult) (chat_ids : List String)
    (msg : String) : List (String × Bool) :=
  ((List.range chat_ids.length).zip chat_ids).map (fun p => (p.2, (tg p.1 p.2 msg).ok))

/-- `POST /send/batch` (`app.py` lines 594-657), after the API-key gate.
The second component lists the outbound Telegram calls made. -/
def send_batch (templates : List (String × Tpl)) (template_name : Option String)
    (chat_ids : List String) (vars0 : List (String × String)) (now : DateTime)
    (tg : Nat → String → String → TgResult) : BatchResult × List (String × String) :=
  if pyFalsy template_name then (.badRequest "template is required", [])
  else if chat_ids = [] then (.badRequest "chat_ids is required", [])
  else
    let name := template_name.getD ""
    match List.lookup name templates with
    | none => (.badRequest ("Unknown template: " ++ name), [])
    | some tpl =>
        let vars := addTimestamp now vars0
        match render tpl vars with
        | .error k => (.badRequest ("Missing variable: " ++ apos ++ k ++ apos), [])
        | .ok msg =>
            let results := batchResults tg chat_ids msg
            let success_count := results.countP (·.2)
            (.ok (decide (0 < success_count)) success_count chat_ids.length results,
             chat_ids.map (fun c => (c, msg)))

/-! ## The monitoring data model and the report builders -/

/-- The `disk_usage` field of a monitoring record, which the code meets
as a per-mount mapping, a bare number, a string such as `"45%"`, or an
absent value. -/
inductive DiskData where
  | dnone
  | ddict (mounts : List (String × String))
  | dint (n : Int)
  | dfloat (r : Rat)
  | dstr (s : String)
deriving DecidableEq

/-- One machine record from the monitoring API response, with exactly
the fields the service reads; an absent field is `none`. -/
structure VM where
  hostname : Option String
  status : Option String
  online : Bool
  cpu_avg : Option Rat
  ram_percent : Option Rat
  disk_usage : DiskData
  last_seen : Option String
  os_name : Option String
  agent_version : Option String
  pending_updates : Option Int
deriving DecidableEq

/-- One step of the alert/warning counting loop of `fetch_vm_summary`
(`app.py` lines 151-159): the pair is `(alerts, warnings)`. -/
def summaryStep (p : Nat × Nat) (vm : VM) : Nat × Nat :=
  let cpu := vm.cpu_avg.getD 0
  let ram := vm.ram_percent.getD 0
  if 90 ≤ cpu ∨ 90 ≤ ram then (p.1 + 1, p.2)
  else if 80 ≤ cpu ∨ 80 ≤ ram then (p.1, p.2 + 1)
  else p

/-- The lines of the `/summary` report (`fetch_vm_summary`, `app.py`
lines 128-177), before joining with newlines.  Counting and the status
glyph follow the code: online/offline by the `status` string, alert at
CPU or RAM at least 90, else warning at CPU or RAM at least 80. -/
def fetch_vm_summary_lines (vms : List VM) : List String :=
  let online := vms.countP (fun vm => vm.status == some "online")
  let offline := vms.countP (fun vm => vm.status == some "offline")
  let aw := vms.foldl summaryStep (0, 0)
  let alerts := aw.1
  let warnings := aw.2
  let status_emoji := if alerts = 0 ∧ warnings = 0 then "🟢" else if 0 < alerts then "🔴" else "🟡"
  [status_emoji ++ " *VM Monitor Summary*",
   "📊 " ++ toString online ++ " online, " ++ toString offline ++ " offline"]
  ++ (if 0 < alerts then ["🚨 " ++ toString alerts ++ " critical alerts"] else [])
  ++ (if 0 < warnings then ["⚠️ " ++ toString warnings ++ " warnings"] else [])
  ++ (if alerts = 0 ∧ warnings = 0 then ["✅ All systems healthy"] else [])

/-- `fetch_vm_summary` on a successfully fetched machine list. -/
def fetch_vm_summary (vms : List VM) : String :=
  "\n".intercalate (fetch_vm_summary_lines vms)

/-- The 10-segment progress bar of `fetch_vm_single` (`bar` in `app.py`
line 265): `int(percent / 10)` filled segments, truncation toward
zero. -/
def bar (percent : Rat) : String :=
  let q : Nat := percent.num.natAbs / (10 * percent.den)
  let filled : Int := if percent.num < 0 then -(q : Int) else (q : Int)
  pyRepeat "▰" filled ++ pyRepeat "▱" (10 - filled)

/-- Python `(value or {}).items()` on a `disk_usage` value: the mount
list when the value is a mapping or falsy, otherwise the
`AttributeError` Python raises, carrying the type name. -/
def diskItems : DiskData → Except String (List (String × String))
  | .dnone => .ok []
  | .ddict mounts => .ok mounts
  | .dstr s => if s = "" then .ok [] else .error "str"
  | .dint n => if n = 0 then .ok [] else .error "int"
  | .dfloat r => if r = 0 then .ok [] else .error "float"

/-- The per-machine detail block of `fetch_vm_single` (`app.py` lines
259-281), for a given mount list. -/
def vm_detail_block (vm : VM) (mounts : List (String × String)) : String :=
  let emoji := if vm.online then "🟢" else "🔴"
  let last_seen := pyReplaceChar (vm.last_seen.getD "") 'T' ' '
  emoji ++ " *" ++ optStr vm.hostname ++ "*\n" ++
  "━━━━━━━━━━━━━━━━━━\n" ++
  "💻 *OS*: `" ++ vm.os_name.getD "Unknown" ++ "`\n" ++
  "📟 *Agent*: `v" ++ vm.agent_version.getD "?" ++ "`\n" ++
  "🔄 *Updates*: `" ++ toString (vm.pending_updates.getD 0) ++ "` pending\n\n" ++
  "*Resources*\n" ++
  "CPU:  `" ++ pyPadLeft (pyFmtF (vm.cpu_avg.getD 0) 1) 5 ++ "%` " ++ bar (vm.cpu_avg.getD 0) ++ "\n" ++
  "RAM:  `" ++ pyPadLeft (pyFmtF (vm.ram_percent.getD 0) 1) 5 ++ "%` " ++ bar (vm.ram_percent.getD 0) ++ "\n" ++
  "*Disk Usage*:\n" ++
  "\n".intercalate (mounts.map (fun p => "  • `" ++ p.1 ++ "`: `" ++ p.2 ++ "`")) ++ "\n\n" ++
  "🕒 *Last Seen*: `" ++ last_seen ++ "`"

/-- The error reply `fetch_vm_single` produces when its body raises: the
outer `except` renders the exception text. -/
def pyAttrErrItems (ty : String) : String :=
  apos ++ ty ++ apos ++ " object has no attribute " ++ apos ++ "items" ++ apos

/-- The machines whose hostname contains the query, case-insensitive
(`app.py` line 250). -/
def vmMatches (vms : List VM) (hostname_query : String) : List VM :=
  vms.filter (fun v => pyIn (pyLower hostname_query) (pyLower (v.hostname.getD "")))

/-- `fetch_vm_single` (`app.py` lines 233-285) on a successfully fetched
machine list: not-found reply, capped candidate list, or the detail
block; a truthy non-mapping `disk_usage` raises inside the body and is
rendered by the outer `except`. -/
def fetch_vm_single (vms : List VM) (hostname_query : String) : String :=
  let ms := vmMatches vms hostname_query
  match ms with
  | [] => "❓ No VM found containing `" ++ hostname_query ++ "`"
  | [vm] =>
      (match diskItems vm.disk_usage with
       | .ok mounts => vm_detail_block vm mounts
       | .error ty => "❌ Error: " ++ pyAttrErrItems ty)
  | _ =>
      "⚠️ Found " ++ toString ms.length ++ " matches:\n" ++
      "\n".intercalate ((ms.take 5).map (fun m => "- `" ++ optStr m.hostname ++ "`"))

/-- The sort key of `fetch_vm_detailed` (`app.py` lines 309-312):
`(status == "online", -cpu)`, compared lexicographically with
`False < True` as Python sorts booleans. -/
def detailedLE (a b : VM) : Bool :=
  let x := a.status == some "online"
  let y := b.status == some "online"
  (!x && y) || (x == y && decide (-(a.cpu_avg.getD 0) ≤ -(b.cpu_avg.getD 0)))

/-- The order relation behind `sorted(vms, key=...)` in
`fetch_vm_detailed`, as a proposition. -/
def detailedRel (a b : VM) : Prop := detailedLE a b = true

instance : DecidableRel detailedRel := fun a b => by
  unfold detailedRel; infer_instance

/-- `sorted(vms, key=lambda v: (v.get("status") == "online",
-v.get("cpu_avg", 0)))`: a stable sort by the detailed key. -/
def sortedVms (vms : List VM) : List VM :=
  vms.insertionSort detailedRel

/-- Truncated hostname of a detailed row: `vm.get("hostname", "?")[:13]`
(`app.py` line 317). -/
def detailedHost (vm : VM) : String :=
  pyTake (vm.hostname.getD "?") 13

/-- The disk column value of a detailed row (`app.py` lines 324-340):
the maximum parsed percentage across mounts for a mapping, the number
itself for a number, a parsed `"45%"`-style string with fallback 0. -/
def detailedDiskVal : DiskData → Rat
  | .ddict mounts =>
      let parsed := (mounts.map Prod.snd).filterMap (fun v =>
        let s := pyStripChar v '%'
        if pyIsDigits (pyDropFirstDot s) then some (parseDec s) else none)
      (match parsed with
       | [] => 0
       | x :: xs => xs.foldl max x)
  | .dint n => (n : Rat)
  | .dfloat r => r
  | .dstr s => (pyFloat (pyStripChar s '%')).getD 0
  | .dnone => 0

/-- One row of the detailed fleet table (`app.py` lines 314-345). -/
def detailedRow (vm : VM) : String :=
  if vm.online then
    pyPadRight (detailedHost vm) 14 ++ " " ++
    pyPadRight (pyFmtF (vm.cpu_avg.getD 0) 0 ++ "%") 4 ++ " " ++
    pyPadRight (pyFmtF (vm.ram_percent.getD 0) 0 ++ "%") 4 ++ " " ++
    pyPadRight (pyFmtF (detailedDiskVal vm.disk_usage) 0 ++ "%") 4 ++ "\n"
  else
    pyPadRight (detailedHost vm) 14 ++ " 🔴 OFFLINE\n"

/-- The header of the detailed fleet table (`app.py` lines 306-307). -/
def detailedHeader : String :=
  pyPadRight "Host" 14 ++ " " ++ pyPadRight "CPU" 4 ++ " " ++
    pyPadRight "RAM" 4 ++ " " ++ pyPadRight "Disk" 4 ++ "\n" ++
    pyRepeat "-" 30 ++ "\n"

/-- `fetch_vm_detailed` (`app.py` lines 288-354) on a successfully
fetched machine list: header, rows for the first 20 machines in sorted
order, and a trailer when more than 20 machines exist. -/
def fetch_vm_detailed (vms : List VM) : String :=
  let table := detailedHeader ++
    String.join (((sortedVms vms).take 20).map detailedRow) ++
    (if 20 < vms.length then "\n...and " ++ toString (vms.length - 20) ++ " more" else "")
  "📋 *Fleet Status*\n```\n" ++ table ++ "```"

/-! ## The bot command handler -/

/-- A monitoring-API fetch the command handler can perform. -/
inductive Fetch where
  | summary
  | alerts
  | detailed
  | single (q : String)
deriving DecidableEq

/-- The fixed reply to an unauthorized chat (`app.py` line 363). -/
def notAuthorizedReply : String := "⛔ You are not authorized to use this bot."

/-- The `/start` help text (`app.py` lines 372-380). -/
def startReply : String :=
  "👋 *VM Monitor Bot*\n\n" ++
  "Available commands:\n" ++
  "/summary - Quick overview\n" ++
  "/alerts - Active issues only\n" ++
  "/detailed - Full list with Disk usage\n" ++
  "/vm <name> - Specific VM details\n" ++
  "/help - Show this message"

/-- The `/help` text (`app.py` lines 403-409). -/
def helpReply : String :=
  "📖 *Help*\n\n" ++
  "/summary - Quick status overview\n" ++
  "/alerts - Show OFFLINE or High Resource VMs\n" ++
  "/detailed - List all VMs (CPU/RAM/Disk)\n" ++
  "/vm <name> - Details for specific VM\n"

/-- `handle_bot_command` (`app.py` lines 357-413).  `authorized` is the
stringified allow-list, `fetch` the monitoring-API oracle.  The result
is the list of replies sent `(chat_id, text)` together with the list of
monitoring fetches performed; `none` models the `IndexError` the code
raises when the command text is all whitespace (unreachable from the
webhook, which only forwards texts starting with a slash). -/
def handle_bot_command (authorized : List String) (chat_id : String) (command : String)
    (fetch : Fetch → String) : Option (List (String × String) × List Fetch) :=
  if authorized ≠ [] ∧ chat_id ∉ authorized then
    some ([(chat_id, notAuthorizedReply)], [])
  else
    match pySplitWs (pyLower command) with
    | [] => none
    | p0 :: args =>
        let cmd := (p0.splitOn "@").headD p0
        if cmd = "/start" then some ([(chat_id, startReply)], [])
        else if cmd = "/summary" then some ([(chat_id, fetch .summary)], [.summary])
        else if cmd = "/alerts" then some ([(chat_id, fetch .alerts)], [.alerts])
        else if cmd = "/detailed" ∨ cmd = "/detail" ∨ cmd = "/list" then
          some ([(chat_id, fetch .detailed)], [.detailed])
        else if cmd = "/vm" then
          match args with
          | [] => some ([(chat_id, "ℹ️ Usage: `/vm <hostname>`")], [])
          | a :: _ => some ([(chat_id, fetch (.single a))], [.single a])
        else if cmd = "/help" then some ([(chat_id, helpReply)], [])
        else some ([(chat_id, "❓ Unknown command. Try /help")], [])


/-- Decidable equality for Except results, so witnesses can be checked
by evaluation. -/
instance {α β : Type} [DecidableEq α] [DecidableEq β] : DecidableEq (Except α β) := fun x y =>
  match x, y with
  | .ok a, .ok b =>
      if h : a = b then .isTrue (by rw [h]) else .isFalse (by intro hc; cases hc; exact h rfl)
  | .error a, .error b =>
      if h : a = b then .isTrue (by rw [h]) else .isFalse (by intro hc; cases hc; exact h rfl)
  | .ok _, .error _ => .isFalse (by intro hc; cases hc)
  | .error _, .ok _ => .isFalse (by intro hc; cases hc)

/-! ## Order facts for the detailed sort, and claim-level predicates -/

instance : IsTotal VM detailedRel where
  total a b := by
    unfold detailedRel detailedLE
    cases hx : (a.status == some "online") <;>
      cases hy : (b.status == some "online") <;>
        simp [hx, hy, decide_eq_true_eq]
    all_goals exact le_total _ _

instance : IsTrans VM detailedRel where
  trans a b c hab hbc := by
    unfold detailedRel detailedLE at hab hbc ⊢
    cases hx : (a.status == some "online") <;>
      cases hy : (b.status == some "online") <;>
        cases hz : (c.status == some "online") <;>
          simp [hx, hy, hz, decide_eq_true_eq] at hab hbc ⊢
    all_goals exact le_trans hbc hab

/-- The alert condition of `fetch_vm_summary`: CPU or RAM at least 90. -/
def isAlertVM (vm : VM) : Bool :=
  decide (90 ≤ vm.cpu_avg.getD 0 ∨ 90 ≤ vm.ram_percent.getD 0)

/-- The warning condition of `fetch_vm_summary`: not an alert, and CPU
or RAM at least 80. -/
def isWarnVM (vm : VM) : Bool :=
  !isAlertVM vm && decide (80 ≤ vm.cpu_avg.getD 0 ∨ 80 ≤ vm.ram_percent.getD 0)

/-! ## Concrete records and oracles used by witnesses and counterexamples -/

/-- An online machine with moderate load. -/
def vmOnC : VM :=
  ⟨some "alpha", some "online", true, some 50, some 10, .ddict [("/", "20%")],
   some "2026-10-12T10:00:00", some "Ubuntu", some "1.0", some 2⟩

/-- An offline machine. -/
def vmOffC : VM :=
  ⟨some "beta", some "offline", false, some 0, some 0, .dnone,
   some "2026-10-11T09:00:00", none, none, none⟩

/-- A healthy online machine for the summary witness. -/
def vmHealthy : VM :=
  ⟨some "h1", some "online", true, some 10, some 20, .dnone, none, none, none, none⟩

/-- A machine whose `disk_usage` is the string `"45%"`, a shape the
alerts branch of the code treats as legitimate. -/
def vmBadDisk : VM :=
  ⟨some "websrv-1", some "online", true, some 42, some 91, .dstr "45%",
   some "2026-10-12T10:00:00", none, none, none⟩

/-- A Telegram oracle whose every call succeeds. -/
def tgAllOk : String → String → TgResult := fun _ _ => ⟨true, none, none⟩

/-- A batch Telegram oracle whose every call fails. -/
def tgAllFail : Nat → String → String → TgResult :=
  fun _ _ _ => ⟨false, some "upstream down", none⟩

/-- A batch Telegram oracle failing exactly the second call. -/
def tgSecondFails : Nat → String → String → TgResult :=
  fun i _ _ => ⟨decide (i ≠ 1), none, none⟩

/-- A constant monitoring-fetch oracle. -/
def fetchStub : Fetch → String := fun _ => "report"

/-! ## Helper lemmas -/

theorem list_lookup_append (k : String) (l1 l2 : List (String × String)) :
    List.lookup k (l1 ++ l2) =
      (match List.lookup k l1 with
       | some v => some v
       | none => List.lookup k l2) := by
  induction l1 with
  | nil => simp [List.lookup]
  | cons p t ih =>
      cases hk : (k == p.1) <;> simp [List.lookup, hk, ih]

theorem lookup_addTimestamp_isSome (now : DateTime) (vars0 : List (String × String)) :
    (List.lookup "timestamp" (addTimestamp now vars0)).isSome = true := by
  unfold addTimestamp
  cases h : List.lookup "timestamp" vars0 with
  | some v => simp [h]
  | none => simp [list_lookup_append, h, List.lookup]

theorem lookup_addTimestamp_ne (now : DateTime) (vars0 : List (String × String))
    (k : String) (hk : k ≠ "timestamp") :
    List.lookup k (addTimestamp now vars0) = List.lookup k vars0 := by
  unfold addTimestamp
  cases h : List.lookup "timestamp" vars0 with
  | some v => rfl
  | none =>
      rw [list_lookup_append]
      have hb : (k == "timestamp") = false := by
        cases hbe : (k == "timestamp")
        · rfl
        · exact absurd (eq_of_beq hbe) hk
      cases h2 : List.lookup k vars0 <;> simp [List.lookup, h2, hb]

/-! ## Claim C4 -/

/-- Claim C4 (confirmed): a request with no API key (neither the header
nor the query parameter) gets HTTP 401; a presented (non-empty) key
outside the accepted set gets HTTP 403; the two codes are distinct; a
key in the accepted set passes through. -/
theorem claim_C4 (src : ConfigFile) (header queryParam : Option String) (k : String)
    (hk : k ≠ "") :
    (header = none → queryParam = none →
      require_api_key src header queryParam = .reject 401 "Missing API key")
    ∧ (pyOrOpt header queryParam = some k → k ∉ (load_config src).api_keys.getD [] →
      require_api_key src header queryParam = .reject 403 "Invalid API key")
    ∧ (pyOrOpt header queryParam = some k → k ∈ (load_config src).api_keys.getD [] →
      require_api_key src header queryParam = .pass)
    ∧ (401 : Nat) ≠ 403 := by
  refine ⟨?_, ?_, ?_, by decide⟩
  · intro h1 h2
    subst h1; subst h2
    simp [require_api_key, pyOrOpt, pyFalsy]
  · intro he hmem
    simp [require_api_key, he, pyFalsy, hk, hmem]
  · intro he hmem
    simp [require_api_key, he, pyFalsy, hk, hmem]

/-- Witness for claim C4 at a concrete config and concrete keys. -/
theorem claim_C4_witness :
    require_api_key (.parsed ⟨none, some ["secret"], none, none⟩) none none
      = .reject 401 "Missing API key"
    ∧ require_api_key (.parsed ⟨none, some ["secret"], none, none⟩) (some "wrong") none
      = .reject 403 "Invalid API key"
    ∧ require_api_key (.parsed ⟨none, some ["secret"], none, none⟩) (some "secret") none
      = .pass := by
  refine ⟨?_, ?_, ?_⟩
  · exact (claim_C4 (.parsed ⟨none, some ["secret"], none, none⟩) none none "x" (by decide)).1 rfl rfl
  · exact (claim_C4 (.parsed ⟨none, some ["secret"], none, none⟩) (some "wrong") none "wrong"
      (by decide)).2.1 (by decide) (by decide)
  · exact (claim_C4 (.parsed ⟨none, some ["secret"], none, none⟩) (some "secret") none "secret"
      (by decide)).2.2.1 (by decide) (by decide)

/-! ## Claim C9 -/

/-- Claim C9 (confirmed): an absent or unparseable config file loads as
the empty configuration, and then every protected request is rejected:
401 with no key, 403 for any presented non-empty key — including any
key some readable file would have accepted — and never a pass. -/
theorem claim_C9 (src : ConfigFile) (hsrc : src = .absent ∨ src = .malformed) :
    load_config src = emptyConfig
    ∧ (∀ header queryParam, pyFalsy (pyOrOpt header queryParam) = true →
        require_api_key src header queryParam = .reject 401 "Missing API key")
    ∧ (∀ k : String, k ≠ "" →
        require_api_key src (some k) none = .reject 403 "Invalid API key")
    ∧ (∀ c : Config, ∀ k : String, k ≠ "" → k ∈ c.api_keys.getD [] →
        require_api_key src (some k) none = .reject 403 "Invalid API key")
    ∧ (∀ header queryParam, require_api_key src header queryParam ≠ .pass) := by
  have hload : load_config src = emptyConfig := by
    rcases hsrc with h | h <;> subst h <;> rfl
  refine ⟨hload, ?_, ?_, ?_, ?_⟩
  · intro header queryParam h
    simp [require_api_key, hload, h]
  · intro k hk
    simp [require_api_key, hload, pyOrOpt, pyFalsy, hk, emptyConfig]
  · intro c k hk _
    simp [require_api_key, hload, pyOrOpt, pyFalsy, hk, emptyConfig]
  · intro header queryParam
    cases hb : pyFalsy (pyOrOpt header queryParam) <;>
      simp [require_api_key, hload, hb, emptyConfig]

/-- Witness for claim C9: the malformed-file case at concrete keys. -/
theorem claim_C9_witness :
    load_config .malformed = emptyConfig
    ∧ require_api_key .malformed none none = .reject 401 "Missing API key"
    ∧ require_api_key .malformed (some "changeme") none = .reject 403 "Invalid API key" := by
  refine ⟨(claim_C9 .malformed (Or.inr rfl)).1, ?_, ?_⟩
  · exact (claim_C9 .malformed (Or.inr rfl)).2.1 none none rfl
  · exact (claim_C9 .malformed (Or.inr rfl)).2.2.1 "changeme" (by decide)

/-! ## Claim C6 -/

/-- Claim C6 (confirmed): with a non-empty allow-list that does not
contain the sender, the handler sends exactly the fixed not-authorized
reply and performs no monitoring fetch, for every command text. -/
theorem claim_C6 (authorized : List String) (chat_id command : String)
    (fetch : Fetch → String) (hne : authorized ≠ []) (hmem : chat_id ∉ authorized) :
    handle_bot_command authorized chat_id command fetch =
      some ([(chat_id, notAuthorizedReply)], []) := by
  unfold handle_bot_command
  rw [if_pos ⟨hne, hmem⟩]

/-- Witness for claim C6 at a concrete allow-list and command. -/
theorem claim_C6_witness :
    handle_bot_command ["8243412741"] "999" "/summary" fetchStub =
      some ([("999", notAuthorizedReply)], []) :=
  claim_C6 ["8243412741"] "999" "/summary" fetchStub (by decide) (by decide)

/-! ## Rendering lemmas -/

theorem render_cons_lit (s : String) (rest : Tpl) (vs : List (String × String)) :
    render (.lit s :: rest) vs = (render rest vs).map (fun r => s ++ r) := by
  cases h : render rest vs <;> simp [render, renderPart, h, Except.map]

theorem render_cons_var (n : String) (rest : Tpl) (vs : List (String × String)) :
    render (.var n :: rest) vs =
      (match List.lookup n vs with
       | some v => (render rest vs).map (fun r => v ++ r)
       | none => .error n) := by
  cases hl : List.lookup n vs <;>
    cases h : render rest vs <;>
      simp [render, renderPart, hl, h, Except.map]

theorem render_error_of_firstMissing (t : Tpl) (vs : List (String × String)) (k : String)
    (h : firstMissing t vs = some k) : render t vs = .error k := by
  induction t with
  | nil => simp [firstMissing] at h
  | cons p rest ih =>
      cases p with
      | lit s =>
          rw [render_cons_lit]
          rw [ih (by simpa [firstMissing] using h)]
          rfl
      | var n =>
          rw [render_cons_var]
          unfold firstMissing at h
          cases hl : List.lookup n vs with
          | some v => rw [hl] at h; rw [ih h]; rfl
          | none => rw [hl] at h; simp at h; simp [h]

theorem render_ok_of_firstMissing_none (t : Tpl) (vs : List (String × String))
    (h : firstMissing t vs = none) : ∃ out, render t vs = .ok out := by
  induction t with
  | nil => exact ⟨"", rfl⟩
  | cons p rest ih =>
      cases p with
      | lit s =>
          obtain ⟨out, hout⟩ := ih (by simpa [firstMissing] using h)
          exact ⟨s ++ out, by rw [render_cons_lit, hout]; rfl⟩
      | var n =>
          unfold firstMissing at h
          cases hl : List.lookup n vs with
          | some v =>
              rw [hl] at h
              obtain ⟨out, hout⟩ := ih h
              exact ⟨v ++ out, by rw [render_cons_var, hl, hout]; rfl⟩
          | none => rw [hl] at h; simp at h

theorem firstMissing_mem_refs (t : Tpl) (vs : List (String × String)) (k : String)
    (h : firstMissing t vs = some k) :
    k ∈ tplRefs t ∧ List.lookup k vs = none := by
  induction t with
  | nil => simp [firstMissing] at h
  | cons p rest ih =>
      cases p with
      | lit s =>
          have := ih (by simpa [firstMissing] using h)
          exact ⟨by simpa [tplRefs] using this.1, this.2⟩
      | var n =>
          unfold firstMissing at h
          cases hl : List.lookup n vs with
          | some v =>
              rw [hl] at h
              have := ih h
              exact ⟨by simp [tplRefs] at this ⊢; exact Or.inr this.1, this.2⟩
          | none =>
              rw [hl] at h
              simp at h
              subst h
              exact ⟨by simp [tplRefs], hl⟩

theorem firstMissing_none_of_covered (t : Tpl) (vs : List (String × String))
    (h : ∀ k ∈ tplRefs t, (List.lookup k vs).isSome = true) :
    firstMissing t vs = none := by
  induction t with
  | nil => rfl
  | cons p rest ih =>
      cases p with
      | lit s =>
          exact ih (fun k hk => h k (by simpa [tplRefs] using hk))
      | var n =>
          unfold firstMissing
          have hn := h n (by simp [tplRefs])
          cases hl : List.lookup n vs with
          | some v => exact ih (fun k hk => h k (by simp [tplRefs] at hk ⊢; exact Or.inr hk))
          | none => rw [hl] at hn; simp at hn

theorem render_congr_refs (t : Tpl) (vs1 vs2 : List (String × String))
    (h : ∀ n ∈ tplRefs t, List.lookup n vs1 = List.lookup n vs2) :
    render t vs1 = render t vs2 := by
  induction t with
  | nil => rfl
  | cons p rest ih =>
      cases p with
      | lit s =>
          rw [render_cons_lit, render_cons_lit,
            ih (fun n hn => h n (by simpa [tplRefs] using hn))]
      | var n =>
          rw [render_cons_var, render_cons_var,
            h n (by simp [tplRefs])]
          cases List.lookup n vs2 with
          | some v =>
              rw [ih (fun m hm => h m (by simp [tplRefs] at hm ⊢; exact Or.inr hm))]
          | none => rfl

/-! ## Claim C5 -/

/-- Claim C5 (confirmed): when the caller supplies no `timestamp`
variable, the service appends one, rendered from the current local time
in the `strftime` format `%Y-%m-%d %H:%M:%S`, and a template referencing
the placeholder renders with that injected value; when the caller does
supply `timestamp`, the mapping is left untouched and the supplied value
is rendered verbatim. -/
theorem claim_C5 (now : DateTime) (vars0 : List (String × String)) :
    (List.lookup "timestamp" vars0 = none →
      addTimestamp now vars0 = vars0 ++ [("timestamp", formatTimestamp now)]
      ∧ List.lookup "timestamp" (addTimestamp now vars0) = some (formatTimestamp now)
      ∧ ∀ a b : String,
          render [.lit a, .var "timestamp", .lit b] (addTimestamp now vars0)
            = .ok (a ++ formatTimestamp now ++ b))
    ∧ (∀ v, List.lookup "timestamp" vars0 = some v →
      addTimestamp now vars0 = vars0
      ∧ ∀ a b : String,
          render [.lit a, .var "timestamp", .lit b] (addTimestamp now vars0)
            = .ok (a ++ v ++ b)) := by
  constructor
  · intro h
    have heq : addTimestamp now vars0 = vars0 ++ [("timestamp", formatTimestamp now)] := by
      unfold addTimestamp; rw [h]
    have hlook : List.lookup "timestamp" (addTimestamp now vars0)
        = some (formatTimestamp now) := by
      rw [heq, list_lookup_append, h]; simp [List.lookup]
    refine ⟨heq, hlook, ?_⟩
    intro a b
    rw [render_cons_lit, render_cons_var, hlook, render_cons_lit]
    show Except.ok (a ++ (formatTimestamp now ++ (b ++ ""))) = _
    rw [String.append_empty, String.append_assoc]
  · intro v h
    have heq : addTimestamp now vars0 = vars0 := by
      unfold addTimestamp; rw [h]
    have hlook : List.lookup "timestamp" (addTimestamp now vars0) = some v := by
      rw [heq, h]
    refine ⟨heq, ?_⟩
    intro a b
    rw [render_cons_lit, render_cons_var, hlook, render_cons_lit]
    show Except.ok (a ++ (v ++ (b ++ ""))) = _
    rw [String.append_empty, String.append_assoc]

/-- Witness for claim C5 at a concrete clock, with and without a
caller-supplied timestamp. -/
theorem claim_C5_witness :
    formatTimestamp ⟨2026, 10, 12, 3, 4, 5⟩ = "2026-10-12 03:04:05"
    ∧ render [.lit "Sent at ", .var "timestamp", .lit "."]
        (addTimestamp ⟨2026, 10, 12, 3, 4, 5⟩ [("x", "1")])
        = .ok ("Sent at " ++ "2026-10-12 03:04:05" ++ ".")
    ∧ render [.lit "Sent at ", .var "timestamp", .lit "."]
        (addTimestamp ⟨2026, 10, 12, 3, 4, 5⟩ [("timestamp", "CALLER")])
        = .ok ("Sent at " ++ "CALLER" ++ ".") := by
  refine ⟨by decide, ?_, ?_⟩
  · have h := ((claim_C5 ⟨2026, 10, 12, 3, 4, 5⟩ [("x", "1")]).1 (by decide)).2.2 "Sent at " "."
    rw [h, show formatTimestamp ⟨2026, 10, 12, 3, 4, 5⟩ = "2026-10-12 03:04:05" from by decide]
  · exact ((claim_C5 ⟨2026, 10, 12, 3, 4, 5⟩ [("timestamp", "CALLER")]).2 "CALLER"
      (by decide)).2 "Sent at " "."

theorem lookup_isSome_of_firstMissing_none (t : Tpl) (vs : List (String × String))
    (h : firstMissing t vs = none) :
    ∀ k ∈ tplRefs t, (List.lookup k vs).isSome = true := by
  induction t with
  | nil => simp [tplRefs]
  | cons p rest ih =>
      cases p with
      | lit s =>
          intro k hk
          exact ih (by simpa [firstMissing] using h) k (by simpa [tplRefs] using hk)
      | var n =>
          unfold firstMissing at h
          cases hl : List.lookup n vs with
          | some v =>
              rw [hl] at h
              intro k hk
              rcases (by simpa [tplRefs] using hk : k = n ∨ k ∈ tplRefs rest) with he | hm
              · subst he; simp [hl]
              · exact ih h k hm
          | none => rw [hl] at h; simp at h

theorem send_message_eq (templates : List (String × Tpl)) (name chat : String) (tpl : Tpl)
    (vars0 : List (String × String)) (now : DateTime) (tg : String → String → TgResult)
    (hname : name ≠ "") (hchat : chat ≠ "")
    (hlook : List.lookup name templates = some tpl) :
    send_message templates (some name) (some chat) vars0 now tg =
      (match render tpl (addTimestamp now vars0) with
       | .error k => (⟨400, none, some ("Missing variable: " ++ apos ++ k ++ apos)⟩, [])
       | .ok msg =>
           if (tg chat msg).ok then (⟨200, some true, none⟩, [(chat, msg)])
           else (⟨500, some false,
                  some (pyOrStr (tg chat msg).description ((tg chat msg).error.getD "Unknown error"))⟩,
                 [(chat, msg)])) := by
  unfold send_message
  rw [show pyFalsy (some name) = false from by simp [pyFalsy, hname],
      show pyFalsy (some chat) = false from by simp [pyFalsy, hchat]]
  simp only [Bool.false_eq_true, if_false, Option.getD_some]
  rw [hlook]

/-! ## Claim C3 -/

/-- Counterexample to claim C3 as stated: the mapping `{}` lacks the
placeholder `timestamp`, which the template `test` references, yet the
send endpoint does not return 400 — the service injects the timestamp
and the message is rendered and delivered. -/
theorem claim_C3_counterexample :
    "timestamp" ∈ tplRefs [TplPart.lit "✅ Message relay is working! Sent at ",
      TplPart.var "timestamp"]
    ∧ List.lookup "timestamp" ([] : List (String × String)) = none
    ∧ send_message DEFAULT_TEMPLATES (some "test") (some "42") []
        ⟨2026, 10, 12, 3, 4, 5⟩ tgAllOk
        = (⟨200, some true, none⟩,
           [("42", "✅ Message relay is working! Sent at 2026-10-12 03:04:05")]) := by
  refine ⟨by decide, rfl, ?_⟩
  have h := send_message_eq DEFAULT_TEMPLATES "test" "42"
    [TplPart.lit "✅ Message relay is working! Sent at ", TplPart.var "timestamp"]
    [] ⟨2026, 10, 12, 3, 4, 5⟩ tgAllOk (by decide) (by decide) (by decide)
  rw [h, show render [TplPart.lit "✅ Message relay is working! Sent at ",
    TplPart.var "timestamp"] (addTimestamp ⟨2026, 10, 12, 3, 4, 5⟩ [])
    = .ok "✅ Message relay is working! Sent at 2026-10-12 03:04:05" from by
      rw [render_cons_lit, render_cons_var]
      rw [show List.lookup "timestamp" (addTimestamp ⟨2026, 10, 12, 3, 4, 5⟩ [])
        = some "2026-10-12 03:04:05" from by decide]
      rfl]
  rfl

/-- Claim C3 amended (the counterexample forces the `timestamp`
exception): when the mapping lacks a placeholder other than `timestamp`
referenced by the template, the send endpoint returns 400 naming the
first such missing key and delivers nothing; when every referenced
placeholder other than `timestamp` is supplied, rendering succeeds
(the message is delivered) and extra keys are ignored, since rendering
depends only on the referenced keys. -/
theorem claim_C3_amended (templates : List (String × Tpl)) (name chat : String) (tpl : Tpl)
    (vars0 : List (String × String)) (now : DateTime) (tg : String → String → TgResult)
    (hname : name ≠ "") (hchat : chat ≠ "")
    (hlook : List.lookup name templates = some tpl) :
    (∀ k, firstMissing tpl (addTimestamp now vars0) = some k →
        k ∈ tplRefs tpl ∧ k ≠ "timestamp" ∧ List.lookup k vars0 = none
        ∧ send_message templates (some name) (some chat) vars0 now tg
            = (⟨400, none, some ("Missing variable: " ++ apos ++ k ++ apos)⟩, []))
    ∧ ((∃ k, k ∈ tplRefs tpl ∧ k ≠ "timestamp" ∧ List.lookup k vars0 = none) →
        (firstMissing tpl (addTimestamp now vars0)).isSome = true)
    ∧ ((∀ k ∈ tplRefs tpl, k = "timestamp" ∨ (List.lookup k vars0).isSome = true) →
        ∃ out, render tpl (addTimestamp now vars0) = .ok out
          ∧ send_message templates (some name) (some chat) vars0 now tg
              = (if (tg chat out).ok then (⟨200, some true, none⟩, [(chat, out)])
                 else (⟨500, some false,
                        some (pyOrStr (tg chat out).description
                          ((tg chat out).error.getD "Unknown error"))⟩,
                       [(chat, out)])))
    ∧ (∀ vs1 vs2 : List (String × String),
        (∀ n ∈ tplRefs tpl, List.lookup n vs1 = List.lookup n vs2) →
        render tpl vs1 = render tpl vs2) := by
  refine ⟨?_, ?_, ?_, render_congr_refs tpl⟩
  · intro k hk
    obtain ⟨hmem, hlk⟩ := firstMissing_mem_refs tpl (addTimestamp now vars0) k hk
    have hkts : k ≠ "timestamp" := by
      intro he
      subst he
      have hs := lookup_addTimestamp_isSome now vars0
      rw [hlk] at hs
      simp at hs
    have hlk0 : List.lookup k vars0 = none := by
      rw [← lookup_addTimestamp_ne now vars0 k hkts]; exact hlk
    refine ⟨hmem, hkts, hlk0, ?_⟩
    rw [send_message_eq templates name chat tpl vars0 now tg hname hchat hlook,
        render_error_of_firstMissing tpl (addTimestamp now vars0) k hk]
  · rintro ⟨k, hk1, hk2, hk3⟩
    cases hfm : firstMissing tpl (addTimestamp now vars0) with
    | some _ => rfl
    | none =>
        have := lookup_isSome_of_firstMissing_none tpl (addTimestamp now vars0) hfm k hk1
        rw [lookup_addTimestamp_ne now vars0 k hk2, hk3] at this
        simp at this
  · intro hcov
    have hnone : firstMissing tpl (addTimestamp now vars0) = none := by
      apply firstMissing_none_of_covered
      intro k hk
      rcases hcov k hk with he | hs
      · subst he; exact lookup_addTimestamp_isSome now vars0
      · by_cases hts : k = "timestamp"
        · subst hts; exact lookup_addTimestamp_isSome now vars0
        · rw [lookup_addTimestamp_ne now vars0 k hts]; exact hs
    obtain ⟨out, hout⟩ := render_ok_of_firstMissing_none tpl (addTimestamp now vars0) hnone
    refine ⟨out, hout, ?_⟩
    rw [send_message_eq templates name chat tpl vars0 now tg hname hchat hlook, hout]

/-- Witness for the amended claim C3: a missing placeholder other than
`timestamp` yields 400 naming it, and a fully supplied mapping (plus an
extra key) renders and delivers. -/
theorem claim_C3_witness :
    send_message [("greet", [TplPart.lit "Hi ", TplPart.var "who"])] (some "greet")
        (some "42") [("extra", "zzz")] ⟨2026, 10, 12, 3, 4, 5⟩ tgAllOk
      = (⟨400, none, some ("Missing variable: " ++ apos ++ "who" ++ apos)⟩, [])
    ∧ render [TplPart.lit "Hi ", TplPart.var "who"]
        (addTimestamp ⟨2026, 10, 12, 3, 4, 5⟩ [("who", "Bob"), ("extra", "zzz")])
      = render [TplPart.lit "Hi ", TplPart.var "who"]
        (addTimestamp ⟨2026, 10, 12, 3, 4, 5⟩ [("who", "Bob")]) := by
  constructor
  · exact ((claim_C3_amended [("greet", [TplPart.lit "Hi ", TplPart.var "who"])] "greet" "42"
      [TplPart.lit "Hi ", TplPart.var "who"] [("extra", "zzz")] ⟨2026, 10, 12, 3, 4, 5⟩
      tgAllOk (by decide) (by decide) (by decide)).1 "who" (by decide)).2.2.2
  · exact (claim_C3_amended [("greet", [TplPart.lit "Hi ", TplPart.var "who"])] "greet" "42"
      [TplPart.lit "Hi ", TplPart.var "who"] [("who", "Bob"), ("extra", "zzz")]
      ⟨2026, 10, 12, 3, 4, 5⟩ tgAllOk (by decide) (by decide) (by decide)).2.2.2
      (addTimestamp ⟨2026, 10, 12, 3, 4, 5⟩ [("who", "Bob"), ("extra", "zzz")])
      (addTimestamp ⟨2026, 10, 12, 3, 4, 5⟩ [("who", "Bob")]) (by decide)

theorem send_batch_eq (templates : List (String × Tpl)) (name : String) (tpl : Tpl)
    (chat_ids : List String) (vars0 : List (String × String)) (now : DateTime)
    (tg : Nat → String → String → TgResult) (msg : String)
    (hname : name ≠ "") (hids : chat_ids ≠ [])
    (hlook : List.lookup name templates = some tpl)
    (hrender : render tpl (addTimestamp now vars0) = .ok msg) :
    send_batch templates (some name) chat_ids vars0 now tg =
      (.ok (decide (0 < (batchResults tg chat_ids msg).countP (·.2)))
        ((batchResults tg chat_ids msg).countP (·.2)) chat_ids.length
        (batchResults tg chat_ids msg),
       chat_ids.map (fun c => (c, msg))) := by
  unfold send_batch
  rw [show pyFalsy (some name) = false from by simp [pyFalsy, hname]]
  simp only [Bool.false_eq_true, if_false, Option.getD_some]
  rw [if_neg hids, hlook]
  show (match render tpl (addTimestamp now vars0) with
    | Except.error k => (BatchResult.badRequest ("Missing variable: " ++ apos ++ k ++ apos),
        ([] : List (String × String)))
    | Except.ok m =>
        (BatchResult.ok
          (decide (0 < List.countP (fun (x : String × Bool) => x.2) (batchResults tg chat_ids m)))
          (List.countP (fun (x : String × Bool) => x.2) (batchResults tg chat_ids m))
          chat_ids.length (batchResults tg chat_ids m),
         List.map (fun c => (c, m)) chat_ids)) = _
  rw [hrender]

theorem batchResults_map_fst (tg : Nat → String → String → TgResult)
    (chat_ids : List String) (msg : String) :
    (batchResults tg chat_ids msg).map Prod.fst = chat_ids := by
  unfold batchResults
  rw [List.map_map]
  exact List.map_snd_zip _ _ (by simp [List.length_range])

theorem batchResults_length (tg : Nat → String → String → TgResult)
    (chat_ids : List String) (msg : String) :
    (batchResults tg chat_ids msg).length = chat_ids.length := by
  simp [batchResults, List.length_zip, List.length_range]

theorem batchResults_getElem (tg : Nat → String → String → TgResult)
    (chat_ids : List String) (msg : String) (i : Nat) (c : String)
    (hc : chat_ids[i]? = some c) :
    (batchResults tg chat_ids msg)[i]? = some (c, (tg i c msg).ok) := by
  have hi : i < chat_ids.length := (List.getElem?_eq_some.1 hc).1
  unfold batchResults
  rw [List.getElem?_map,
      show ((List.range chat_ids.length).zip chat_ids)[i]? = some (i, c) from
        List.getElem?_zip_eq_some.mpr ⟨List.getElem?_range hi, hc⟩]
  rfl

/-! ## Claim C2 -/

/-- Claim C2 (confirmed): a batch send with a known template, non-empty
recipients and all variables supplied returns sent = number of upstream
successes, total = N, and a results array of exactly N entries in input
order; every recipient is attempted (the outbound-call list covers all
N recipients), so one failure does not stop the rest. -/
theorem claim_C2 (templates : List (String × Tpl)) (name : String) (tpl : Tpl)
    (chat_ids : List String) (vars0 : List (String × String)) (now : DateTime)
    (tg : Nat → String → String → TgResult) (msg : String)
    (hname : name ≠ "") (hids : chat_ids ≠ [])
    (hlook : List.lookup name templates = some tpl)
    (hrender : render tpl (addTimestamp now vars0) = .ok msg) :
    send_batch templates (some name) chat_ids vars0 now tg =
      (.ok (decide (0 < (batchResults tg chat_ids msg).countP (·.2)))
        ((batchResults tg chat_ids msg).countP (·.2)) chat_ids.length
        (batchResults tg chat_ids msg),
       chat_ids.map (fun c => (c, msg)))
    ∧ (batchResults tg chat_ids msg).map Prod.fst = chat_ids
    ∧ (batchResults tg chat_ids msg).length = chat_ids.length
    ∧ (batchResults tg chat_ids msg).countP (·.2)
        = ((List.range chat_ids.length).zip chat_ids).countP (fun p => (tg p.1 p.2 msg).ok)
    ∧ (∀ i c, chat_ids[i]? = some c →
        (batchResults tg chat_ids msg)[i]? = some (c, (tg i c msg).ok))
    ∧ (chat_ids.map (fun c => (c, msg))).length = chat_ids.length := by
  refine ⟨send_batch_eq templates name tpl chat_ids vars0 now tg msg hname hids hlook hrender,
    batchResults_map_fst tg chat_ids msg, batchResults_length tg chat_ids msg, ?_,
    batchResults_getElem tg chat_ids msg, by simp⟩
  unfold batchResults
  rw [List.countP_map]
  rfl

/-- Witness for claim C2: three recipients, the second upstream call
fails, so sent = 2, total = 3, results in input order. -/
theorem claim_C2_witness :
    send_batch [("t", [TplPart.var "x"])] (some "t") ["a", "b", "c"] [("x", "hi")]
        ⟨2026, 10, 12, 3, 4, 5⟩ tgSecondFails =
      (.ok true 2 3 [("a", true), ("b", false), ("c", true)],
       [("a", "hi"), ("b", "hi"), ("c", "hi")]) := by
  have h := (claim_C2 [("t", [TplPart.var "x"])] "t" [TplPart.var "x"] ["a", "b", "c"]
    [("x", "hi")] ⟨2026, 10, 12, 3, 4, 5⟩ tgSecondFails "hi" (by decide) (by decide)
    (by decide) (by decide)).1
  rw [h]
  rfl

/-! ## Claim C10 -/

/-- Claim C10 (confirmed): a completed batch send always has HTTP
status 200 and its success flag is true exactly when at least one
recipient succeeded; in particular when every upstream call fails the
response is still 200 but with success = false and sent = 0. -/
theorem claim_C10 (templates : List (String × Tpl)) (name : String) (tpl : Tpl)
    (chat_ids : List String) (vars0 : List (String × String)) (now : DateTime)
    (tg : Nat → String → String → TgResult) (msg : String)
    (hname : name ≠ "") (hids : chat_ids ≠ [])
    (hlook : List.lookup name templates = some tpl)
    (hrender : render tpl (addTimestamp now vars0) = .ok msg) :
    batchStatus (send_batch templates (some name) chat_ids vars0 now tg).1 = 200
    ∧ (batchSuccess (send_batch templates (some name) chat_ids vars0 now tg).1 = some true
        ↔ 0 < (batchSent (send_batch templates (some name) chat_ids vars0 now tg).1).getD 0)
    ∧ ((∀ i c m, (tg i c m).ok = false) →
        batchSuccess (send_batch templates (some name) chat_ids vars0 now tg).1 = some false
        ∧ batchSent (send_batch templates (some name) chat_ids vars0 now tg).1 = some 0) := by
  have he := send_batch_eq templates name tpl chat_ids vars0 now tg msg hname hids hlook hrender
  rw [he]
  refine ⟨rfl, ?_, ?_⟩
  · simp [batchSuccess, batchSent]
  · intro hall
    have hzero : (batchResults tg chat_ids msg).countP (·.2) = 0 := by
      rw [List.countP_eq_zero]
      intro p hp
      obtain ⟨q, _, hq⟩ := List.mem_map.1 hp
      rw [← hq]
      simp [hall]
    simp [batchSuccess, batchSent, hzero]

/-- Witness for claim C10: every upstream call fails, the response is
still a 200 body with success = false and sent = 0. -/
theorem claim_C10_witness :
    batchStatus (send_batch [("t", [TplPart.var "x"])] (some "t") ["a", "b"] [("x", "hi")]
        ⟨2026, 10, 12, 3, 4, 5⟩ tgAllFail).1 = 200
    ∧ batchSuccess (send_batch [("t", [TplPart.var "x"])] (some "t") ["a", "b"] [("x", "hi")]
        ⟨2026, 10, 12, 3, 4, 5⟩ tgAllFail).1 = some false
    ∧ batchSent (send_batch [("t", [TplPart.var "x"])] (some "t") ["a", "b"] [("x", "hi")]
        ⟨2026, 10, 12, 3, 4, 5⟩ tgAllFail).1 = some 0 := by
  have h := claim_C10 [("t", [TplPart.var "x"])] "t" [TplPart.var "x"] ["a", "b"]
    [("x", "hi")] ⟨2026, 10, 12, 3, 4, 5⟩ tgAllFail "hi" (by decide) (by decide)
    (by decide) (by decide)
  exact ⟨h.1, (h.2.2 (fun _ _ _ => rfl)).1, (h.2.2 (fun _ _ _ => rfl)).2⟩

theorem summary_foldl (vms : List VM) (a w : Nat) :
    vms.foldl summaryStep (a, w) = (a + vms.countP isAlertVM, w + vms.countP isWarnVM) := by
  induction vms generalizing a w with
  | nil => simp
  | cons vm t ih =>
      by_cases h1 : 90 ≤ vm.cpu_avg.getD 0 ∨ 90 ≤ vm.ram_percent.getD 0
      · have hstep : summaryStep (a, w) vm = (a + 1, w) := by simp [summaryStep, h1]
        have ha : isAlertVM vm = true := by simp [isAlertVM, h1]
        have hw : isWarnVM vm = false := by simp [isWarnVM, ha]
        rw [List.foldl_cons, hstep, ih, List.countP_cons, List.countP_cons, ha, hw]
        simp
        omega
      · by_cases h2 : 80 ≤ vm.cpu_avg.getD 0 ∨ 80 ≤ vm.ram_percent.getD 0
        · have hstep : summaryStep (a, w) vm = (a, w + 1) := by
            simp [summaryStep, h1, h2]
          have ha : isAlertVM vm = false := by
            simp only [isAlertVM, decide_eq_false_iff_not]
            exact h1
          have hw : isWarnVM vm = true := by
            simp [isWarnVM, ha, h2]
          rw [List.foldl_cons, hstep, ih, List.countP_cons, List.countP_cons, ha, hw]
          simp
          omega
        · have hstep : summaryStep (a, w) vm = (a, w) := by
            simp [summaryStep, h1, h2]
          have ha : isAlertVM vm = false := by
            simp only [isAlertVM, decide_eq_false_iff_not]
            exact h1
          have hw : isWarnVM vm = false := by
            simp only [isWarnVM, ha, Bool.not_false, Bool.true_and,
              decide_eq_false_iff_not]
            exact h2
          rw [List.foldl_cons, hstep, ih, List.countP_cons, List.countP_cons, ha, hw]
          simp

/-! ## Claim C7 -/

/-- Claim C7 (confirmed): the summary counts online and offline
machines, counts alerts (CPU or RAM at least 90) and warnings (at least
80 and not an alert), escalates the status glyph to the most severe
condition present, and on an all-online all-below-80 list shows the
healthy line with zero alert and warning counts. -/
theorem claim_C7 (vms : List VM) :
    fetch_vm_summary vms = "\n".intercalate (fetch_vm_summary_lines vms)
    ∧ fetch_vm_summary_lines vms =
        [(if vms.countP isAlertVM = 0 ∧ vms.countP isWarnVM = 0 then "🟢"
          else if 0 < vms.countP isAlertVM then "🔴" else "🟡") ++ " *VM Monitor Summary*",
         "📊 " ++ toString (vms.countP (fun vm => vm.status == some "online")) ++ " online, "
           ++ toString (vms.countP (fun vm => vm.status == some "offline")) ++ " offline"]
        ++ (if 0 < vms.countP isAlertVM then
              ["🚨 " ++ toString (vms.countP isAlertVM) ++ " critical alerts"] else [])
        ++ (if 0 < vms.countP isWarnVM then
              ["⚠️ " ++ toString (vms.countP isWarnVM) ++ " warnings"] else [])
        ++ (if vms.countP isAlertVM = 0 ∧ vms.countP isWarnVM = 0 then
              ["✅ All systems healthy"] else [])
    ∧ ((∀ vm ∈ vms, vm.status = some "online"
          ∧ vm.cpu_avg.getD 0 < 80 ∧ vm.ram_percent.getD 0 < 80) →
        vms.countP isAlertVM = 0 ∧ vms.countP isWarnVM = 0
        ∧ fetch_vm_summary_lines vms =
            ["🟢 *VM Monitor Summary*",
             "📊 " ++ toString vms.length ++ " online, " ++ toString (0 : Nat) ++ " offline",
             "✅ All systems healthy"]) := by
  have hlines : fetch_vm_summary_lines vms =
      [(if vms.countP isAlertVM = 0 ∧ vms.countP isWarnVM = 0 then "🟢"
        else if 0 < vms.countP isAlertVM then "🔴" else "🟡") ++ " *VM Monitor Summary*",
       "📊 " ++ toString (vms.countP (fun vm => vm.status == some "online")) ++ " online, "
         ++ toString (vms.countP (fun vm => vm.status == some "offline")) ++ " offline"]
      ++ (if 0 < vms.countP isAlertVM then
            ["🚨 " ++ toString (vms.countP isAlertVM) ++ " critical alerts"] else [])
      ++ (if 0 < vms.countP isWarnVM then
            ["⚠️ " ++ toString (vms.countP isWarnVM) ++ " warnings"] else [])
      ++ (if vms.countP isAlertVM = 0 ∧ vms.countP isWarnVM = 0 then
            ["✅ All systems healthy"] else []) := by
    unfold fetch_vm_summary_lines
    rw [summary_foldl vms 0 0]
    simp
  refine ⟨rfl, hlines, ?_⟩
  intro h
  have hA : vms.countP isAlertVM = 0 := by
    rw [List.countP_eq_zero]
    intro vm hm
    obtain ⟨_, hc, hr⟩ := h vm hm
    simp only [isAlertVM, decide_eq_true_eq]
    push_neg
    constructor <;> linarith
  have hW : vms.countP isWarnVM = 0 := by
    rw [List.countP_eq_zero]
    intro vm hm
    obtain ⟨_, hc, hr⟩ := h vm hm
    simp only [isWarnVM, Bool.and_eq_true, decide_eq_true_eq]
    rintro ⟨-, h80⟩
    rcases h80 with h80 | h80 <;> linarith
  have hOn : vms.countP (fun vm => vm.status == some "online") = vms.length := by
    rw [List.countP_eq_length]
    intro vm hm
    rw [(h vm hm).1]
    simp
  have hOff : vms.countP (fun vm => vm.status == some "offline") = 0 := by
    rw [List.countP_eq_zero]
    intro vm hm
    rw [(h vm hm).1]
    decide
  refine ⟨hA, hW, ?_⟩
  rw [hlines, hA, hW, hOn, hOff]
  simp

/-- Witness for claim C7: a single healthy online machine produces the
healthy summary. -/
theorem claim_C7_witness :
    fetch_vm_summary [vmHealthy]
      = "🟢 *VM Monitor Summary*\n📊 1 online, 0 offline\n✅ All systems healthy" := by
  have h := claim_C7 [vmHealthy]
  have h3 := h.2.2 (by decide)
  rw [h.1, h3.2.2]
  decide

/-! ## Claim C8 -/

/-- Counterexample to claim C8 as stated: a single case-insensitive
match whose `disk_usage` field is the string `"45%"` (a shape the alerts
branch of the same program reads as a string) does not get its detail
block — the body raises on `.items()` and the reply is the rendered
exception. -/
theorem claim_C8_counterexample :
    vmMatches [vmBadDisk] "websrv" = [vmBadDisk]
    ∧ fetch_vm_single [vmBadDisk] "websrv" = "❌ Error: " ++ pyAttrErrItems "str"
    ∧ fetch_vm_single [vmBadDisk] "websrv" ≠ vm_detail_block vmBadDisk [] := by
  refine ⟨by decide, by decide, by decide⟩

/-- Claim C8 amended (the counterexample forces the proviso on the
disk-usage shape): the lookup filters by case-insensitive substring on
hostnames; zero matches give a not-found reply containing the query;
exactly one match gives the detail block of that machine provided its
disk-usage field is a mapping or falsy, and an error reply otherwise;
two or more matches give a candidate list capped at 5. -/
theorem claim_C8_amended (vms : List VM) (q : String) :
    (vmMatches vms q = [] →
      fetch_vm_single vms q = "❓ No VM found containing `" ++ q ++ "`")
    ∧ (∀ vm mounts, vmMatches vms q = [vm] → diskItems vm.disk_usage = .ok mounts →
      fetch_vm_single vms q = vm_detail_block vm mounts)
    ∧ (∀ vm ty, vmMatches vms q = [vm] → diskItems vm.disk_usage = .error ty →
      fetch_vm_single vms q = "❌ Error: " ++ pyAttrErrItems ty)
    ∧ (2 ≤ (vmMatches vms q).length →
      fetch_vm_single vms q = "⚠️ Found " ++ toString (vmMatches vms q).length ++ " matches:\n"
        ++ "\n".intercalate (((vmMatches vms q).take 5).map
            (fun m => "- `" ++ optStr m.hostname ++ "`"))
      ∧ ((vmMatches vms q).take 5).length ≤ 5)
    ∧ (∀ v, v ∈ vmMatches vms q ↔
        v ∈ vms ∧ pyIn (pyLower q) (pyLower (v.hostname.getD "")) = true) := by
  refine ⟨?_, ?_, ?_, ?_, ?_⟩
  · intro h
    unfold fetch_vm_single
    rw [h]
  · intro vm mounts h hd
    unfold fetch_vm_single
    rw [h]
    show (match diskItems vm.disk_usage with
      | Except.ok mounts => vm_detail_block vm mounts
      | Except.error ty => "❌ Error: " ++ pyAttrErrItems ty) = vm_detail_block vm mounts
    rw [hd]
  · intro vm ty h hd
    unfold fetch_vm_single
    rw [h]
    show (match diskItems vm.disk_usage with
      | Except.ok mounts => vm_detail_block vm mounts
      | Except.error ty => "❌ Error: " ++ pyAttrErrItems ty) = "❌ Error: " ++ pyAttrErrItems ty
    rw [hd]
  · intro h2
    rcases hm : vmMatches vms q with _ | ⟨a, _ | ⟨b, t⟩⟩
    · rw [hm] at h2; simp at h2
    · rw [hm] at h2; simp at h2
    · constructor
      · unfold fetch_vm_single
        rw [hm]
      · simp [List.length_take]
  · intro v
    unfold vmMatches
    exact List.mem_filter

/-- Witness for the amended claim C8: a case-insensitive single match
renders the detail block, no match renders not-found, two matches
render the capped candidate list. -/
theorem claim_C8_witness :
    fetch_vm_single [vmOnC] "ALP" = vm_detail_block vmOnC [("/", "20%")]
    ∧ fetch_vm_single [] "websrv" = "❓ No VM found containing `websrv`"
    ∧ fetch_vm_single [vmOnC, vmBadDisk] "" = "⚠️ Found 2 matches:\n- `alpha`\n- `websrv-1`" := by
  refine ⟨?_, ?_, ?_⟩
  · exact (claim_C8_amended [vmOnC] "ALP").2.1 vmOnC [("/", "20%")] (by decide) (by decide)
  · exact (claim_C8_amended [] "websrv").1 (by decide)
  · have h := ((claim_C8_amended [vmOnC, vmBadDisk] "").2.2.2.1 (by decide)).1
    rw [h]
    decide

/-! ## Claim C1 -/

/-- Counterexample to claim C1 as stated: the detailed report lists the
offline machine before the online one.  The sort key is
`(status == "online", -cpu)` in ascending order and Python sorts
`False` before `True`, so machines not marked online come first. -/
theorem claim_C1_counterexample :
    vmOnC.status = some "online"
    ∧ vmOffC.status = some "offline"
    ∧ sortedVms [vmOnC, vmOffC] = [vmOffC, vmOnC]
    ∧ fetch_vm_detailed [vmOnC, vmOffC] =
        "📋 *Fleet Status*\n```\nHost           CPU  RAM  Disk\n------------------------------\nbeta           🔴 OFFLINE\nalpha          50%  10%  20% \n```" := by
  refine ⟨rfl, rfl, by decide, by decide⟩

/-- Claim C1 amended (the counterexample reverses the claimed
online-first order): the detailed fleet report lists machines sorted
offline-first (machines whose status is not the string online first)
and by descending CPU within each group; rendered hostnames are
truncated to at most 13 characters; at most 20 rows are rendered, and
with more than 20 machines a trailer counts the remainder. -/
theorem claim_C1_amended (vms : List VM) :
    fetch_vm_detailed vms =
      "📋 *Fleet Status*\n```\n" ++ (detailedHeader
        ++ String.join (((sortedVms vms).take 20).map detailedRow)
        ++ (if 20 < vms.length then "\n...and " ++ toString (vms.length - 20) ++ " more"
            else "")) ++ "```"
    ∧ (sortedVms vms).Perm vms
    ∧ List.Pairwise detailedRel (sortedVms vms)
    ∧ (∀ a b : VM, detailedRel a b ↔
        (((a.status == some "online") = false ∧ (b.status == some "online") = true)
         ∨ ((a.status == some "online") = (b.status == some "online")
             ∧ b.cpu_avg.getD 0 ≤ a.cpu_avg.getD 0)))
    ∧ ((sortedVms vms).take 20).length ≤ 20
    ∧ (∀ vm ∈ sortedVms vms, (detailedHost vm).length ≤ 13)
    ∧ (vms.length ≤ 20 → ((sortedVms vms).take 20).length = vms.length)
    ∧ (20 < vms.length →
        fetch_vm_detailed vms =
          "📋 *Fleet Status*\n```\n" ++ (detailedHeader
            ++ String.join (((sortedVms vms).take 20).map detailedRow)
            ++ ("\n...and " ++ toString (vms.length - 20) ++ " more")) ++ "```")
    ∧ (vms.length ≤ 20 →
        fetch_vm_detailed vms =
          "📋 *Fleet Status*\n```\n" ++ (detailedHeader
            ++ String.join (((sortedVms vms).take 20).map detailedRow)) ++ "```") := by
  refine ⟨rfl, List.perm_insertionSort detailedRel vms,
    List.sorted_insertionSort detailedRel vms, ?_, ?_, ?_, ?_, ?_, ?_⟩
  · intro a b
    unfold detailedRel detailedLE
    cases hx : (a.status == some "online") <;> cases hy : (b.status == some "online") <;>
      simp [hx, hy, decide_eq_true_eq]
  · simp [List.length_take]
  · intro vm _
    have h13 : (detailedHost vm).length = ((vm.hostname.getD "?").data.take 13).length := rfl
    rw [h13, List.length_take]
    omega
  · intro h
    have hlen : (sortedVms vms).length = vms.length :=
      (List.perm_insertionSort detailedRel vms).length_eq
    rw [List.length_take, hlen]
    omega
  · intro h
    unfold fetch_vm_detailed
    rw [if_pos h]
  · intro h
    unfold fetch_vm_detailed
    rw [if_neg (by omega), String.append_empty]

/-- Witness for the amended claim C1 at a concrete two-machine list. -/
theorem claim_C1_witness :
    List.Pairwise detailedRel (sortedVms [vmOnC, vmOffC])
    ∧ ((sortedVms [vmOnC, vmOffC]).take 20).length = [vmOnC, vmOffC].length
    ∧ fetch_vm_detailed [vmOnC, vmOffC]
        = "📋 *Fleet Status*\n```\n" ++ (detailedHeader
            ++ String.join (((sortedVms [vmOnC, vmOffC]).take 20).map detailedRow)) ++ "```" := by
  have h := claim_C1_amended [vmOnC, vmOffC]
  exact ⟨h.2.2.1, h.2.2.2.2.2.2.1 (by decide), h.2.2.2.2.2.2.2.2 (by decide)⟩
